import Mathlib

/-!
Verification of the qdrant-http-mcp server core (src/server.js, src/embeddings.js).

The tool handlers are embedded as pure Lean functions parameterized over the two
external collaborators (the embedding client and the Qdrant vector-store client),
which are modelled at their interface boundary as `Except`-returning functions.
Embedding vectors, scores and scoring weights are modelled as rationals; JSON
objects (metadata, filters) as association lists; JS `undefined` as `Option.none`.
-/

namespace QdrantMcp

/-- An embedding vector; its numeric contents are opaque to the server core. -/
abbrev Vec := List ℚ

/-- An open key-value metadata map (a JSON object), modelled as an association list. -/
abbrev Metadata := List (String × String)

/-- A metadata filter, forwarded verbatim to the vector store. -/
abbrev Filter := List (String × String)

/-- The payload stored with each point: `{ information, metadata, timestamp }`. -/
structure Payload where
  information : String
  metadata : Metadata
  timestamp : String
deriving DecidableEq, Inhabited

/-- A point upserted into the vector store (a StoredItem).  `vector` is an
`Option` because in `qdrant-batch-store` the JS expression `embeddings[index]`
can be `undefined` when the embeddings list is shorter than the items list. -/
structure Point where
  id : String
  vector : Option Vec
  payload : Payload
deriving DecidableEq, Inhabited

/-- Hybrid scoring parameters forwarded to the store:
`{ vector_weight, keyword_weight }`. -/
structure ScoringParams where
  vector_weight : ℚ
  keyword_weight : ℚ
deriving DecidableEq

/-- The search request the server sends to the vector store (the `searchParams`
object built by the handlers).  Absent JS fields are `none` / `false`. -/
structure SearchParams where
  vector : Option Vec
  limit : Nat
  filter : Option Filter
  with_payload : Bool
  query : Option String
  score_threshold : Option ℚ
  params : Option ScoringParams
deriving DecidableEq

/-- A scored point returned by the vector store's search. -/
structure ScoredPoint where
  payload : Payload
  score : ℚ
deriving DecidableEq, Inhabited

/-- The uniform shape of every retrieved item in a search tool result:
`{ information, metadata, score, timestamp }`. -/
structure FormattedResult where
  information : String
  metadata : Metadata
  score : ℚ
  timestamp : String
deriving DecidableEq, Inhabited

/-- The formatting applied to each vector-store hit; `qdrant-find`,
`qdrant-hybrid-search` and `qdrant-filtered-search` all use this same mapping. -/
def formatResult (r : ScoredPoint) : FormattedResult :=
  { information := r.payload.information
    metadata := r.payload.metadata
    score := r.score
    timestamp := r.payload.timestamp }

/-- The default collection name (`COLLECTION_NAME`, default `agent-ren3`). -/
def COLLECTION_NAME : String := "agent-ren3"

/-- The point built by the `qdrant-store` handler: a server-generated fresh id
(`crypto.randomUUID()`, modelled by the `freshId` argument), the embedding of
`information`, and the payload with the write-time timestamp
(`new Date().toISOString()`, modelled by `now`). -/
def storePoint (freshId : String) (embedding : Vec) (information : String)
    (metadata : Metadata) (now : String) : Point :=
  { id := freshId
    vector := some embedding
    payload := { information := information, metadata := metadata, timestamp := now } }

/-- The `qdrant-store` handler.  Its zod schema declares only `information` and
`metadata`; `ignoredId` models an id field a client might put in the argument
map, which the handler's destructuring never reads.  Returns the parsed
`{ success, id }` on success, or the error message of the caught failure. -/
def qdrantStore (embed : String → Except String Vec)
    (upsert : String → List Point → Except String Unit)
    (freshId : String) (now : String)
    (information : String) (metadata : Metadata) (ignoredId : Option String) :
    Except String (Bool × String) :=
  match embed information with
  | .error e => .error ("Error storing information: " ++ e)
  | .ok embedding =>
    match upsert COLLECTION_NAME [storePoint freshId embedding information metadata now] with
    | .error e => .error ("Error storing information: " ++ e)
    | .ok _ => .ok (true, freshId)

/-- The search request built by the `qdrant-find` handler: the query embedding,
the caller's limit (zod default 5) and the optional filter. -/
def findSearchParams (embedding : Vec) (limit : Nat) (filter : Option Filter) :
    SearchParams :=
  { vector := some embedding
    limit := limit
    filter := filter
    with_payload := false
    query := none
    score_threshold := none
    params := none }

/-- The `qdrant-find` handler: embed the query, search, format each hit. -/
def qdrantFind (embed : String → Except String Vec)
    (search : SearchParams → Except String (List ScoredPoint))
    (query : String) (limit : Nat) (filter : Option Filter) :
    Except String (List FormattedResult) :=
  match embed query with
  | .error e => .error ("Error searching information: " ++ e)
  | .ok embedding =>
    match search (findSearchParams embedding limit filter) with
    | .error e => .error ("Error searching information: " ++ e)
    | .ok results => .ok (results.map formatResult)

/-- The search request built by the `qdrant-hybrid-search` handler: `2 × limit`
candidates with payloads; when `keyword_weight > 0` it additionally carries the
text query, a zero score threshold and the two pass-through scoring weights. -/
def hybridSearchParams (embedding : Vec) (query : String)
    (vector_weight keyword_weight : ℚ) (filters : Option Filter) (limit : Nat) :
    SearchParams :=
  let base : SearchParams :=
    { vector := some embedding
      limit := limit * 2
      filter := filters
      with_payload := true
      query := none
      score_threshold := none
      params := none }
  if 0 < keyword_weight then
    { base with
        query := some query
        score_threshold := some 0
        params := some { vector_weight := vector_weight, keyword_weight := keyword_weight } }
  else base

/-- The `qdrant-hybrid-search` handler (zod defaults: `vector_weight` 0.7,
`keyword_weight` 0.3, `limit` 10): embed the query, over-fetch `2 × limit`
candidates, then truncate (`slice(0, limit)`) and format. -/
def qdrantHybridSearch (embed : String → Except String Vec)
    (search : SearchParams → Except String (List ScoredPoint))
    (query : String) (vector_weight keyword_weight : ℚ)
    (filters : Option Filter) (limit : Nat) :
    Except String (List FormattedResult) :=
  match embed query with
  | .error e => .error ("Error performing hybrid search: " ++ e)
  | .ok embedding =>
    match search (hybridSearchParams embedding query vector_weight keyword_weight filters limit) with
    | .error e => .error ("Error performing hybrid search: " ++ e)
    | .ok results => .ok ((results.take limit).map formatResult)

/-- The search request built by the `qdrant-filtered-search` handler. -/
def filteredSearchParams (vector : Option Vec) (filters : Filter) (limit : Nat) :
    SearchParams :=
  { vector := vector
    limit := limit
    filter := some filters
    with_payload := true
    query := none
    score_threshold := none
    params := none }

/-- The `qdrant-filtered-search` handler.  The JS guard `use_vector && query`
embeds only when `use_vector` is set and the query string is truthy (present
and non-empty). -/
def qdrantFilteredSearch (embed : String → Except String Vec)
    (search : SearchParams → Except String (List ScoredPoint))
    (query : Option String) (filters : Filter) (use_vector : Bool) (limit : Nat) :
    Except String (List FormattedResult) :=
  let embedded : Except String (Option Vec) :=
    match query with
    | some q => if use_vector ∧ q ≠ "" then (embed q).map some else .ok none
    | none => .ok none
  match embedded with
  | .error e => .error ("Error performing filtered search: " ++ e)
  | .ok v =>
    match search (filteredSearchParams v filters limit) with
    | .error e => .error ("Error performing filtered search: " ++ e)
    | .ok results => .ok (results.map formatResult)

/-- The `qdrant-collection-stats` handler: fetch and return the collection
metadata verbatim (the metadata itself is opaque to the core). -/
def qdrantCollectionStats (getCollection : String → Except String String)
    (collection_name : String) : Except String String :=
  match getCollection collection_name with
  | .error e => .error ("Error getting collection stats: " ++ e)
  | .ok stats => .ok stats

/-- The `qdrant-list-collections` handler: fetch and return the list verbatim. -/
def qdrantListCollections (getCollections : Unit → Except String (List String)) :
    Except String (List String) :=
  match getCollections () with
  | .error e => .error ("Error listing collections: " ++ e)
  | .ok collections => .ok collections

/-- A `qdrant-batch-store` input item: `{ information, metadata?, id? }`. -/
structure BatchItem where
  information : String
  metadata : Option Metadata
  id : Option String
deriving DecidableEq, Inhabited

/-- The JS expression `item.id || crypto.randomUUID()`: an absent id and the
(falsy) empty string are both replaced by the fresh UUID. -/
def idOrFresh (id : Option String) (fresh : String) : String :=
  match id with
  | none => fresh
  | some s => if s = "" then fresh else s

/-- The texts handed to the single `embedBatch` call, in input order
(`items.map(item => item.information)`). -/
def batchTexts (items : List BatchItem) : List String :=
  items.map (·.information)

/-- The points built for batch insertion: one per input item, with the
embedding paired to the item by position (`embeddings[index]`).  `gen i` models
the `crypto.randomUUID()` draw for the item at index `i`. -/
def batchPoints (items : List BatchItem) (embeddings : List Vec)
    (gen : Nat → String) (now : String) : List Point :=
  (List.range items.length).map fun i =>
    let item := items.getD i default
    { id := idOrFresh item.id (gen i)
      vector := embeddings[i]?
      payload :=
        { information := item.information
          metadata := item.metadata.getD []
          timestamp := now } }

/-- The `qdrant-batch-store` handler: one batched embedding call over all
`information` texts, one upsert of all points, result `{ success, message, ids }`
(success is the constant `true`; the model returns the message and ids). -/
def qdrantBatchStore (embedBatch : List String → Except String (List Vec))
    (upsert : String → List Point → Except String Unit)
    (gen : Nat → String) (now : String)
    (items : List BatchItem) (collection_name : String) :
    Except String (String × List String) :=
  match embedBatch (batchTexts items) with
  | .error e => .error ("Error batch storing information: " ++ e)
  | .ok embeddings =>
    let points := batchPoints items embeddings gen now
    match upsert collection_name points with
    | .error e => .error ("Error batch storing information: " ++ e)
    | .ok _ =>
      .ok ("Successfully stored " ++ toString points.length ++ " items",
           points.map (·.id))

/-- The session table (`transports`): the session ids with a live transport. -/
abbrev SessionTable := List String

/-- `GET /mcp`: registers the fresh transport under its session id
(`transports[sessionId] = transport`). -/
def openSession (table : SessionTable) (sid : String) : SessionTable :=
  sid :: table

/-- `transport.onclose` / explicit close: evicts the id from the table
(`delete transports[sessionId]`). -/
def closeSession (table : SessionTable) (sid : String) : SessionTable :=
  table.filter (· ≠ sid)

/-- A synchronous HTTP response of the `/messages` endpoint. -/
structure HttpResponse where
  status : Nat
  body : String
deriving DecidableEq

/-- The `POST /messages` handler.  `handle` models
`transport.handlePostMessage`; its errors are caught and mapped to a 500.  The
handler only reads the session table, so it is returned unchanged. -/
def postMessages (handle : String → String → Except String HttpResponse)
    (table : SessionTable) (sessionId : Option String) (body : String) :
    HttpResponse × SessionTable :=
  match sessionId with
  | none => ({ status := 400, body := "Missing sessionId parameter" }, table)
  | some sid =>
    if sid ∈ table then
      match handle sid body with
      | .ok r => (r, table)
      | .error _ => ({ status := 500, body := "Error handling request" }, table)
    else
      ({ status := 404, body := "Session not found" }, table)

/-- One iteration of the SIGINT shutdown loop over `(table, log)`: close the
transport; on success delete it from the table, on error append a log entry and
leave the table untouched (the `delete` sits after the `await close()`). -/
def shutdownStep (close : String → Except String Unit)
    (acc : SessionTable × List String) (sid : String) : SessionTable × List String :=
  match close sid with
  | .ok _ => (acc.1.filter (· ≠ sid), acc.2)
  | .error e =>
    (acc.1, acc.2 ++ ["Error closing transport for session " ++ sid ++ ": " ++ e])

/-- The SIGINT handler: iterate over every session id in the table, attempting
each close in turn; returns the final table and the error log. -/
def shutdown (close : String → Except String Unit) (table : SessionTable) :
    SessionTable × List String :=
  table.foldl (shutdownStep close) (table, [])

/-- A sample ranked store content, used to instantiate collaborator hypotheses. -/
def sampleRank : Option Vec → Option Filter → List ScoredPoint :=
  fun _ _ =>
    [ { payload := { information := "alpha", metadata := [], timestamp := "t1" }, score := 1 },
      { payload := { information := "beta", metadata := [], timestamp := "t2" }, score := 1/2 } ]

/-- A sample vector store returning the top `limit` entries of `sampleRank`. -/
def sampleSearch : SearchParams → Except String (List ScoredPoint) :=
  fun p => .ok ((sampleRank p.vector p.filter).take p.limit)

/-- A sample embedding collaborator mapping every text to a constant vector. -/
def sampleEmbed : String → Except String Vec := fun _ => .ok [1, 0]

/-- Sample batch items sharing identical `information` text. -/
def sampleItems : List BatchItem :=
  [ { information := "a", metadata := none, id := none },
    { information := "a", metadata := some [("k", "v")], id := some "x" } ]

/-- Claim C7: a Dispatch with no sessionId is rejected immediately with a
bad-request (400) response, and the session table is returned unchanged. -/
theorem dispatch_missing_sessionId_rejected
    (handle : String → String → Except String HttpResponse)
    (table : SessionTable) (body : String) :
    postMessages handle table none body
      = ({ status := 400, body := "Missing sessionId parameter" }, table) := rfl

/-- Claim C6: a Dispatch whose sessionId is not in the session table — in
particular one that was opened and then closed — yields a 404 not-found
rejection, leaves the table unchanged, and never invokes the transport's
message handler (the response is independent of the handler). -/
theorem dispatch_unknown_session_rejected
    (handle handleB : String → String → Except String HttpResponse)
    (table : SessionTable) (sid body : String)
    (h : sid ∉ table) :
    postMessages handle table (some sid) body
        = ({ status := 404, body := "Session not found" }, table)
    ∧ postMessages handle table (some sid) body
        = postMessages handleB table (some sid) body
    ∧ ∀ t : SessionTable,
        postMessages handle (closeSession (openSession t sid) sid) (some sid) body
          = ({ status := 404, body := "Session not found" },
             closeSession (openSession t sid) sid) := by
  have h404 : ∀ hd : String → String → Except String HttpResponse,
      postMessages hd table (some sid) body
        = ({ status := 404, body := "Session not found" }, table) := by
    intro hd
    simp [postMessages, h]
  refine ⟨h404 handle, (h404 handle).trans (h404 handleB).symm, ?_⟩
  intro t
  have hnot : sid ∉ closeSession (openSession t sid) sid := by
    simp [closeSession, openSession, List.mem_filter]
  simp [postMessages, hnot]

/-- Witness for C6 at a concrete never-opened session id. -/
theorem dispatch_unknown_session_witness :
    postMessages (fun _ _ => .ok { status := 200, body := "ok" }) ["a"] (some "b") "frame"
      = ({ status := 404, body := "Session not found" }, ["a"]) :=
  (dispatch_unknown_session_rejected (fun _ _ => .ok { status := 200, body := "ok" })
    (fun _ _ => .error "x") ["a"] "b" "frame" (by decide)).1

/-- Claim C9: the single-item store tool never uses a client-supplied id — for
every argument set (including a client-sent id field, which the handler's
destructuring never reads) the result id is the freshly server-generated UUID,
and the upserted point's id is that same fresh UUID. -/
theorem store_id_always_fresh
    (embed : String → Except String Vec)
    (upsert : String → List Point → Except String Unit)
    (freshId now information : String) (metadata : Metadata) (v : Vec)
    (hembed : embed information = .ok v)
    (hup : upsert COLLECTION_NAME [storePoint freshId v information metadata now] = .ok ()) :
    (∀ ignoredId : Option String,
        qdrantStore embed upsert freshId now information metadata ignoredId
          = .ok (true, freshId))
    ∧ (storePoint freshId v information metadata now).id = freshId := by
  refine ⟨fun ignoredId => ?_, rfl⟩
  simp [qdrantStore, hembed, hup]

/-- Witness for C9: a client-supplied id is ignored and the fresh UUID is used. -/
theorem store_id_always_fresh_witness :
    qdrantStore sampleEmbed (fun _ _ => .ok ()) "uuid-7" "now" "info" [] (some "client-id")
      = .ok (true, "uuid-7") :=
  (store_id_always_fresh sampleEmbed (fun _ _ => .ok ()) "uuid-7" "now" "info" [] [1, 0]
    rfl rfl).1 (some "client-id")

/-- Claim C1: with `keyword_weight = 0` (and any `vector_weight`), a
hybrid-search returns exactly the result of a pure vector find on the same
query, limit and filter, provided the vector store answers a pure-vector
request (no text query) with the top `limit` entries of a ranking determined
by the vector and filter alone. -/
theorem hybrid_kw0_matches_find
    (embed : String → Except String Vec)
    (search : SearchParams → Except String (List ScoredPoint))
    (rank : Option Vec → Option Filter → List ScoredPoint)
    (query : String) (limit : Nat) (filter : Option Filter)
    (vector_weight : ℚ) (v : Vec)
    (hembed : embed query = .ok v)
    (hsearch : ∀ p : SearchParams, p.query = none →
      search p = .ok ((rank p.vector p.filter).take p.limit)) :
    qdrantHybridSearch embed search query vector_weight 0 filter limit
      = qdrantFind embed search query limit filter := by
  have hmin : min limit (limit * 2) = limit := by omega
  have hq : (hybridSearchParams v query vector_weight 0 filter limit).query = none := by
    simp [hybridSearchParams]
  have h1 := hsearch _ hq
  have h2 := hsearch (findSearchParams v limit filter) rfl
  simp only [qdrantHybridSearch, qdrantFind, hembed, h1, h2]
  simp [hybridSearchParams, findSearchParams, List.take_take, hmin]

/-- Witness for C1 on a concrete two-point store with limit 1. -/
theorem hybrid_kw0_matches_find_witness :
    qdrantHybridSearch sampleEmbed sampleSearch "color" (7/10) 0 none 1
      = qdrantFind sampleEmbed sampleSearch "color" 1 none :=
  hybrid_kw0_matches_find sampleEmbed sampleSearch sampleRank "color" 1 none (7/10) [1, 0]
    rfl (fun _ _ => rfl)

/-- Counterexample to claim C2 as stated: at `keyword_weight = 0` the handler
does not forward the weights to the collaborator's scoring parameters — the
request carries no scoring parameters at all. -/
theorem hybrid_weights_dropped_at_kw0 :
    (hybridSearchParams [1] "a" (7/10) 0 none 10).params
      ≠ some { vector_weight := 7/10, keyword_weight := 0 } := by
  simp [hybridSearchParams]

/-- Claim C2 (amended): every hybrid-search embeds the query, requests exactly
`2 × limit` candidates built from that embedding, truncates the returned list
to the first `limit` items after retrieval, and — when `keyword_weight > 0` —
passes both weights through to the collaborator's scoring parameters together
with the text query; when `keyword_weight = 0` no scoring parameters are sent. -/
theorem hybrid_pipeline_overfetch_truncate_passthrough
    (embed : String → Except String Vec)
    (search : SearchParams → Except String (List ScoredPoint))
    (query : String) (vector_weight keyword_weight : ℚ)
    (filters : Option Filter) (limit : Nat) (v : Vec) (rs : List ScoredPoint)
    (hembed : embed query = .ok v)
    (hsearch : search (hybridSearchParams v query vector_weight keyword_weight filters limit)
      = .ok rs) :
    qdrantHybridSearch embed search query vector_weight keyword_weight filters limit
        = .ok ((rs.take limit).map formatResult)
    ∧ (hybridSearchParams v query vector_weight keyword_weight filters limit).vector = some v
    ∧ (hybridSearchParams v query vector_weight keyword_weight filters limit).limit = limit * 2
    ∧ (0 < keyword_weight →
        (hybridSearchParams v query vector_weight keyword_weight filters limit).params
            = some { vector_weight := vector_weight, keyword_weight := keyword_weight }
          ∧ (hybridSearchParams v query vector_weight keyword_weight filters limit).query
            = some query)
    ∧ (keyword_weight = 0 →
        (hybridSearchParams v query vector_weight keyword_weight filters limit).params
          = none) := by
  refine ⟨?_, ?_, ?_, ?_, ?_⟩
  · simp only [qdrantHybridSearch, hembed, hsearch]
  · by_cases hk : 0 < keyword_weight <;> simp [hybridSearchParams, hk]
  · by_cases hk : 0 < keyword_weight <;> simp [hybridSearchParams, hk]
  · intro hk
    constructor <;> simp [hybridSearchParams, hk]
  · intro hk
    subst hk
    simp [hybridSearchParams]

/-- Witness for C2 (amended) at a concrete call with positive keyword weight. -/
theorem hybrid_pipeline_witness :
    qdrantHybridSearch sampleEmbed sampleSearch "q" (7/10) (3/10) none 1
        = .ok
          ((((sampleRank (hybridSearchParams [1, 0] "q" (7/10) (3/10) none 1).vector
                (hybridSearchParams [1, 0] "q" (7/10) (3/10) none 1).filter).take
              (hybridSearchParams [1, 0] "q" (7/10) (3/10) none 1).limit).take 1).map
            formatResult)
    ∧ (hybridSearchParams [1, 0] "q" (7/10) (3/10) none 1).vector = some [1, 0]
    ∧ (hybridSearchParams [1, 0] "q" (7/10) (3/10) none 1).limit = 1 * 2
    ∧ (0 < (3 : ℚ)/10 →
        (hybridSearchParams [1, 0] "q" (7/10) (3/10) none 1).params
            = some { vector_weight := 7/10, keyword_weight := 3/10 }
          ∧ (hybridSearchParams [1, 0] "q" (7/10) (3/10) none 1).query = some "q")
    ∧ ((3 : ℚ)/10 = 0 →
        (hybridSearchParams [1, 0] "q" (7/10) (3/10) none 1).params = none) :=
  hybrid_pipeline_overfetch_truncate_passthrough sampleEmbed sampleSearch "q"
    (7/10) (3/10) none 1 [1, 0] _ rfl rfl

/-- Claim C4: whenever the embedding collaborator or the vector-store
collaborator fails, each tool handler catches the failure at the tool boundary
and returns exactly one error-flagged result carrying the collaborator's
message, for all seven tools (store, find, hybrid-search, filtered-search,
collection-stats, list-collections, batch-store). -/
theorem collaborator_failures_become_error_results (e : String) :
    (∀ (upsert : String → List Point → Except String Unit) freshId now information metadata
        ignoredId,
        qdrantStore (fun _ => .error e) upsert freshId now information metadata ignoredId
          = .error ("Error storing information: " ++ e))
    ∧ (∀ (embed : String → Except String Vec) freshId now information metadata ignoredId v,
        embed information = .ok v →
        qdrantStore embed (fun _ _ => .error e) freshId now information metadata ignoredId
          = .error ("Error storing information: " ++ e))
    ∧ (∀ (search : SearchParams → Except String (List ScoredPoint)) query limit filter,
        qdrantFind (fun _ => .error e) search query limit filter
          = .error ("Error searching information: " ++ e))
    ∧ (∀ (embed : String → Except String Vec) query limit filter v,
        embed query = .ok v →
        qdrantFind embed (fun _ => .error e) query limit filter
          = .error ("Error searching information: " ++ e))
    ∧ (∀ (search : SearchParams → Except String (List ScoredPoint)) query vw kw filters limit,
        qdrantHybridSearch (fun _ => .error e) search query vw kw filters limit
          = .error ("Error performing hybrid search: " ++ e))
    ∧ (∀ (embed : String → Except String Vec) query vw kw filters limit v,
        embed query = .ok v →
        qdrantHybridSearch embed (fun _ => .error e) query vw kw filters limit
          = .error ("Error performing hybrid search: " ++ e))
    ∧ (∀ (search : SearchParams → Except String (List ScoredPoint)) query filters limit,
        query ≠ "" →
        qdrantFilteredSearch (fun _ => .error e) search (some query) filters true limit
          = .error ("Error performing filtered search: " ++ e))
    ∧ (∀ (embed : String → Except String Vec) filters use_vector limit,
        qdrantFilteredSearch embed (fun _ => .error e) none filters use_vector limit
          = .error ("Error performing filtered search: " ++ e))
    ∧ (∀ collection_name,
        qdrantCollectionStats (fun _ => .error e) collection_name
          = .error ("Error getting collection stats: " ++ e))
    ∧ qdrantListCollections (fun _ => .error e)
        = .error ("Error listing collections: " ++ e)
    ∧ (∀ (upsert : String → List Point → Except String Unit) gen now items collection_name,
        qdrantBatchStore (fun _ => .error e) upsert gen now items collection_name
          = .error ("Error batch storing information: " ++ e))
    ∧ (∀ (embedBatch : List String → Except String (List Vec)) gen now items collection_name
        embs,
        embedBatch (batchTexts items) = .ok embs →
        qdrantBatchStore embedBatch (fun _ _ => .error e) gen now items collection_name
          = .error ("Error batch storing information: " ++ e)) := by
  refine ⟨?_, ?_, ?_, ?_, ?_, ?_, ?_, ?_, ?_, ?_, ?_, ?_⟩
  · intro upsert freshId now information metadata ignoredId
    simp [qdrantStore]
  · intro embed freshId now information metadata ignoredId v hv
    simp [qdrantStore, hv]
  · intro search query limit filter
    simp [qdrantFind]
  · intro embed query limit filter v hv
    simp [qdrantFind, hv]
  · intro search query vw kw filters limit
    simp [qdrantHybridSearch]
  · intro embed query vw kw filters limit v hv
    simp [qdrantHybridSearch, hv]
  · intro search query filters limit hq
    simp [qdrantFilteredSearch, hq, Except.map]
  · intro embed filters use_vector limit
    simp [qdrantFilteredSearch]
  · intro collection_name
    simp [qdrantCollectionStats]
  · simp [qdrantListCollections]
  · intro upsert gen now items collection_name
    simp [qdrantBatchStore]
  · intro embedBatch gen now items collection_name embs hv
    simp [qdrantBatchStore, hv]

/-- Witness for C4: a failing upsert surfaced by the store handler. -/
theorem collaborator_failures_witness :
    qdrantStore sampleEmbed (fun _ _ => .error "boom") "uuid-1" "now" "info" [] none
      = .error ("Error storing information: " ++ "boom") :=
  (collaborator_failures_become_error_results "boom").2.1 sampleEmbed "uuid-1" "now"
    "info" [] none [1, 0] rfl

/-- Claim C5: on success, find, hybrid-search and filtered-search (with and
without a vector) all represent each retrieved item through the single
`formatResult` mapping into the one `FormattedResult` shape
`{ information, metadata, score, timestamp }`. -/
theorem search_results_uniform_shape :
    (∀ (embed : String → Except String Vec)
        (search : SearchParams → Except String (List ScoredPoint)) query limit filter v rs,
        embed query = .ok v →
        search (findSearchParams v limit filter) = .ok rs →
        qdrantFind embed search query limit filter = .ok (rs.map formatResult))
    ∧ (∀ (embed : String → Except String Vec)
        (search : SearchParams → Except String (List ScoredPoint)) query vw kw filters limit
        v rs,
        embed query = .ok v →
        search (hybridSearchParams v query vw kw filters limit) = .ok rs →
        qdrantHybridSearch embed search query vw kw filters limit
          = .ok ((rs.take limit).map formatResult))
    ∧ (∀ (embed : String → Except String Vec)
        (search : SearchParams → Except String (List ScoredPoint)) filters use_vector limit rs,
        search (filteredSearchParams none filters limit) = .ok rs →
        qdrantFilteredSearch embed search none filters use_vector limit
          = .ok (rs.map formatResult))
    ∧ (∀ (embed : String → Except String Vec)
        (search : SearchParams → Except String (List ScoredPoint)) query filters limit v rs,
        query ≠ "" →
        embed query = .ok v →
        search (filteredSearchParams (some v) filters limit) = .ok rs →
        qdrantFilteredSearch embed search (some query) filters true limit
          = .ok (rs.map formatResult))
    ∧ (∀ r : ScoredPoint,
        formatResult r
          = { information := r.payload.information
              metadata := r.payload.metadata
              score := r.score
              timestamp := r.payload.timestamp }) := by
  refine ⟨?_, ?_, ?_, ?_, fun r => rfl⟩
  · intro embed search query limit filter v rs hv hs
    simp [qdrantFind, hv, hs]
  · intro embed search query vw kw filters limit v rs hv hs
    simp [qdrantHybridSearch, hv, hs]
  · intro embed search filters use_vector limit rs hs
    simp [qdrantFilteredSearch, hs]
  · intro embed search query filters limit v rs hq hv hs
    simp [qdrantFilteredSearch, hq, hv, hs, Except.map]

/-- Witness for C5: the find handler on a concrete store, with the uniform
shape fully evaluated. -/
theorem search_results_uniform_shape_witness :
    qdrantFind sampleEmbed sampleSearch "q" 2 none
      = .ok [ { information := "alpha", metadata := [], score := 1, timestamp := "t1" },
              { information := "beta", metadata := [], score := 1/2, timestamp := "t2" } ] :=
  search_results_uniform_shape.1 sampleEmbed sampleSearch "q" 2 none [1, 0] _ rfl rfl

/-- Claim C3: batch-store with N items embeds all `information` texts in one
batched order-preserving call, builds exactly one point per item with the
embedding paired to the item by position, and returns exactly N ids
positionally paired to the points — independent of whether items share
identical `information` text. -/
theorem batch_store_positional_pairing
    (embedBatch : List String → Except String (List Vec))
    (upsert : String → List Point → Except String Unit)
    (gen : Nat → String) (now : String)
    (items : List BatchItem) (collection_name : String) (embs : List Vec)
    (hemb : embedBatch (items.map (·.information)) = .ok embs)
    (hlen : embs.length = items.length)
    (hup : upsert collection_name (batchPoints items embs gen now) = .ok ()) :
    batchTexts items = items.map (·.information)
    ∧ (batchPoints items embs gen now).length = items.length
    ∧ qdrantBatchStore embedBatch upsert gen now items collection_name
        = .ok ("Successfully stored "
                 ++ toString (batchPoints items embs gen now).length ++ " items",
               (batchPoints items embs gen now).map (·.id))
    ∧ ((batchPoints items embs gen now).map (·.id)).length = items.length
    ∧ ∀ i, i < items.length →
        (batchPoints items embs gen now)[i]!.vector = some embs[i]!
        ∧ (batchPoints items embs gen now)[i]!.payload.information = items[i]!.information
        ∧ (batchPoints items embs gen now)[i]!.payload.metadata = (items[i]!.metadata).getD []
        ∧ (batchPoints items embs gen now)[i]!.payload.timestamp = now
        ∧ ((batchPoints items embs gen now).map (·.id))[i]!
            = idOrFresh items[i]!.id (gen i) := by
  have hlenpts : (batchPoints items embs gen now).length = items.length := by
    simp [batchPoints]
  have hmain : qdrantBatchStore embedBatch upsert gen now items collection_name
      = .ok ("Successfully stored "
               ++ toString (batchPoints items embs gen now).length ++ " items",
             (batchPoints items embs gen now).map (·.id)) := by
    simp only [qdrantBatchStore, batchTexts, hemb, hup]
  refine ⟨rfl, hlenpts, hmain, by simp [hlenpts], ?_⟩
  intro i hi
  have hip : i < (batchPoints items embs gen now).length := by rw [hlenpts]; exact hi
  have hie : i < embs.length := by rw [hlen]; exact hi
  have hitem : items[i]?.getD default = items[i]! := by
    rw [getElem!_pos items i hi, List.getElem?_eq_getElem hi]
    rfl
  have hpt : (batchPoints items embs gen now)[i]!
      = { id := idOrFresh (items.getD i default).id (gen i)
          vector := embs[i]?
          payload := { information := (items.getD i default).information
                       metadata := ((items.getD i default).metadata).getD []
                       timestamp := now } } := by
    rw [getElem!_pos (batchPoints items embs gen now) i hip]
    simp [batchPoints]
  have hvec : embs[i]? = some embs[i]! := by
    rw [getElem!_pos embs i hie]
    simp
  have hmapid : ((batchPoints items embs gen now).map (·.id))[i]!
      = (batchPoints items embs gen now)[i]!.id := by
    have him : i < ((batchPoints items embs gen now).map (·.id)).length := by
      simpa [hlenpts] using hi
    rw [getElem!_pos ((batchPoints items embs gen now).map (·.id)) i him,
        getElem!_pos (batchPoints items embs gen now) i hip]
    simp
  exact ⟨by simp [hpt, hvec], by simp [hpt, hitem], by simp [hpt, hitem],
         by simp [hpt], by simp [hmapid, hpt, hitem]⟩

/-- Witness for C3 on two items sharing identical information text. -/
theorem batch_store_positional_pairing_witness :
    qdrantBatchStore (fun _ => .ok [[1], [2]]) (fun _ _ => .ok ())
        (fun i => "uuid-" ++ toString i) "now" sampleItems "c"
      = .ok ("Successfully stored "
               ++ toString (batchPoints sampleItems [[1], [2]]
                     (fun i => "uuid-" ++ toString i) "now").length ++ " items",
             (batchPoints sampleItems [[1], [2]]
                 (fun i => "uuid-" ++ toString i) "now").map (·.id)) :=
  (batch_store_positional_pairing (fun _ => .ok [[1], [2]]) (fun _ _ => .ok ())
    (fun i => "uuid-" ++ toString i) "now" sampleItems "c" [[1], [2]]
    rfl rfl rfl).2.2.1

/-- Claim C10: a batch item whose client-supplied id is the empty string is
treated as having no id: the stored point and the returned ids list carry the
freshly generated UUID for that position, not the empty string. -/
theorem batch_store_empty_id_replaced
    (embedBatch : List String → Except String (List Vec))
    (upsert : String → List Point → Except String Unit)
    (gen : Nat → String) (now : String)
    (items : List BatchItem) (collection_name : String) (embs : List Vec) (i : Nat)
    (hemb : embedBatch (batchTexts items) = .ok embs)
    (hup : upsert collection_name (batchPoints items embs gen now) = .ok ())
    (hi : i < items.length)
    (hid : items[i]!.id = some "") :
    idOrFresh items[i]!.id (gen i) = gen i
    ∧ (batchPoints items embs gen now)[i]!.id = gen i
    ∧ ((batchPoints items embs gen now).map (·.id))[i]! = gen i
    ∧ (gen i ≠ "" → ((batchPoints items embs gen now).map (·.id))[i]! ≠ "")
    ∧ qdrantBatchStore embedBatch upsert gen now items collection_name
        = .ok ("Successfully stored "
                 ++ toString (batchPoints items embs gen now).length ++ " items",
               (batchPoints items embs gen now).map (·.id)) := by
  have hlenpts : (batchPoints items embs gen now).length = items.length := by
    simp [batchPoints]
  have hip : i < (batchPoints items embs gen now).length := by rw [hlenpts]; exact hi
  have hitem : items[i]?.getD default = items[i]! := by
    rw [getElem!_pos items i hi, List.getElem?_eq_getElem hi]
    rfl
  have hptid : (batchPoints items embs gen now)[i]!.id
      = idOrFresh items[i]!.id (gen i) := by
    rw [getElem!_pos (batchPoints items embs gen now) i hip]
    simp [batchPoints, hitem]
  have hfresh : idOrFresh items[i]!.id (gen i) = gen i := by
    rw [hid]
    simp [idOrFresh]
  have hmapid : ((batchPoints items embs gen now).map (·.id))[i]!
      = (batchPoints items embs gen now)[i]!.id := by
    have him : i < ((batchPoints items embs gen now).map (·.id)).length := by
      simpa [hlenpts] using hi
    rw [getElem!_pos ((batchPoints items embs gen now).map (·.id)) i him,
        getElem!_pos (batchPoints items embs gen now) i hip]
    simp
  have hmain : qdrantBatchStore embedBatch upsert gen now items collection_name
      = .ok ("Successfully stored "
               ++ toString (batchPoints items embs gen now).length ++ " items",
             (batchPoints items embs gen now).map (·.id)) := by
    simp only [qdrantBatchStore, hemb, hup]
  refine ⟨hfresh, by rw [hptid, hfresh], by rw [hmapid, hptid, hfresh], ?_, hmain⟩
  intro hgen
  rw [hmapid, hptid, hfresh]
  exact hgen

/-- Witness for C10: one item with an empty-string id gets the generated UUID. -/
theorem batch_store_empty_id_witness :
    ((batchPoints [{ information := "a", metadata := none, id := some "" }] [[1]]
        (fun i => "uuid-" ++ toString i) "now").map (·.id))[0]!
      = "uuid-" ++ toString 0 :=
  (batch_store_empty_id_replaced (fun _ => .ok [[1]]) (fun _ _ => .ok ())
    (fun i => "uuid-" ++ toString i) "now"
    [{ information := "a", metadata := none, id := some "" }] "c" [[1]] 0
    rfl rfl (by decide) rfl).2.2.1

/-- The table component never grows across one shutdown step. -/
theorem shutdownStep_fst_subset (close : String → Except String Unit)
    (acc : SessionTable × List String) (sid : String) :
    (shutdownStep close acc sid).1 ⊆ acc.1 := by
  unfold shutdownStep
  cases close sid with
  | ok u => exact List.filter_subset' acc.1
  | error e => exact fun x hx => hx

/-- The log component only grows across one shutdown step. -/
theorem shutdownStep_snd_mono (close : String → Except String Unit)
    (acc : SessionTable × List String) (sid : String) :
    acc.2 ⊆ (shutdownStep close acc sid).2 := by
  unfold shutdownStep
  cases close sid with
  | ok u => exact fun x hx => hx
  | error e => exact fun x hx => List.mem_append_left _ hx

/-- The table component never grows across the whole shutdown loop. -/
theorem shutdown_foldl_fst_subset (close : String → Except String Unit) (l : List String) :
    ∀ acc : SessionTable × List String,
      (l.foldl (shutdownStep close) acc).1 ⊆ acc.1 := by
  induction l with
  | nil => exact fun acc x hx => hx
  | cons a l ih =>
    intro acc x hx
    exact shutdownStep_fst_subset close acc a (ih (shutdownStep close acc a) hx)

/-- The log component only grows across the whole shutdown loop. -/
theorem shutdown_foldl_snd_mono (close : String → Except String Unit) (l : List String) :
    ∀ acc : SessionTable × List String,
      acc.2 ⊆ (l.foldl (shutdownStep close) acc).2 := by
  induction l with
  | nil => exact fun acc x hx => hx
  | cons a l ih =>
    intro acc x hx
    exact ih (shutdownStep close acc a) (shutdownStep_snd_mono close acc a hx)

/-- A session whose close succeeds is removed by the loop, whatever the other
sessions do. -/
theorem shutdown_fold_removes (close : String → Except String Unit) (sid : String)
    (hok : close sid = .ok ()) :
    ∀ (l : List String) (acc : SessionTable × List String),
      sid ∈ l → sid ∉ (l.foldl (shutdownStep close) acc).1 := by
  intro l
  induction l with
  | nil => intro acc h; cases h
  | cons a l ih =>
    intro acc h
    rcases List.mem_cons.mp h with heq | hl
    · subst heq
      by_cases hsl : sid ∈ l
      · exact ih (shutdownStep close acc sid) hsl
      · intro hcontra
        have hsub : sid ∈ (shutdownStep close acc sid).1 :=
          shutdown_foldl_fst_subset close l (shutdownStep close acc sid) hcontra
        unfold shutdownStep at hsub
        rw [hok] at hsub
        have hp := List.of_mem_filter hsub
        simp at hp
    · exact ih (shutdownStep close acc a) hl

/-- A session whose close fails leaves its error entry in the log. -/
theorem shutdown_fold_logs (close : String → Except String Unit) (sid e : String)
    (herr : close sid = .error e) :
    ∀ (l : List String) (acc : SessionTable × List String),
      sid ∈ l →
      ("Error closing transport for session " ++ sid ++ ": " ++ e)
        ∈ (l.foldl (shutdownStep close) acc).2 := by
  intro l
  induction l with
  | nil => intro acc h; cases h
  | cons a l ih =>
    intro acc h
    rcases List.mem_cons.mp h with heq | hl
    · subst heq
      refine shutdown_foldl_snd_mono close l (shutdownStep close acc sid) ?_
      unfold shutdownStep
      rw [herr]
      simp
    · exact ih (shutdownStep close acc a) hl

/-- Claim C8: shutdown attempts to close every open session — each session of
the table whose close succeeds ends up evicted from the table, and each whose
close raises an error has that error logged (not propagated), so an erroring
session cannot prevent the others from being closed. -/
theorem shutdown_attempts_every_session
    (close : String → Except String Unit) (table : SessionTable) (sid : String)
    (hmem : sid ∈ table) :
    (close sid = .ok () → sid ∉ (shutdown close table).1)
    ∧ ∀ e, close sid = .error e →
        ("Error closing transport for session " ++ sid ++ ": " ++ e)
          ∈ (shutdown close table).2 := by
  constructor
  · intro hok
    exact shutdown_fold_removes close sid hok table (table, []) hmem
  · intro e herr
    exact shutdown_fold_logs close sid e herr table (table, []) hmem

/-- Witness for C8: with the middle session's close failing, a later session
is still closed. -/
theorem shutdown_attempts_witness :
    "s3" ∉ (shutdown (fun s => if s = "s2" then .error "stuck" else .ok ())
      ["s1", "s2", "s3"]).1 :=
  (shutdown_attempts_every_session (fun s => if s = "s2" then .error "stuck" else .ok ())
    ["s1", "s2", "s3"] "s3" (by simp)).1 rfl

end QdrantMcp
